import Mathlib

/-!
Verification of the learning-rate scheduling and embedding-distance metric
code in `utils.py` of the semantic-embeddings repository.

Vectors are modelled as lists of rationals (exact arithmetic stands in for
the float arithmetic of the numpy/Keras backend).  The factory
`get_lr_schedule` mutates its `schedule_args` dictionary in place; this is
modelled by state passing: the function also returns the dictionary as it
stands after the call.
-/

/-- Lowercasing of a string, modelling Python `str.lower()` on the ASCII
schedule names compared by `get_lr_schedule`. -/
def strLower (s : String) : String := String.mk (s.data.map Char.toLower)

/-- A vector (one row of an embedding batch), with exact rational entries. -/
abbrev Vec := List ℚ

/-- Elementwise subtraction `a - b` under the backend's 1-D broadcasting
rule: defined pointwise when the lengths agree; when exactly one operand has
length 1 its single entry is silently broadcast across the other; any other
length mismatch is a shape error (`none`). -/
def bcastSub (a b : Vec) : Option Vec :=
  if a.length = b.length then some (List.zipWith (fun x y => x - y) a b)
  else if a.length = 1 then some (b.map (fun y => a.headD 0 - y))
  else if b.length = 1 then some (a.map (fun x => x - b.headD 0))
  else none

/-- Model of `squared_distance(y_true, y_pred) = K.sum(K.square(y_pred - y_true), axis=-1)`
(utils.py lines 22-23) on one row: the sum of squared entries of the
backend subtraction `y_pred - y_true`. -/
def squared_distance (y_true y_pred : Vec) : Option ℚ :=
  (bcastSub y_pred y_true).map (fun d => (d.map (fun x => x ^ 2)).sum)

/-- Squared Euclidean norm of a row, as computed by
`(embedding.T ** 2).sum(axis=0)` (per centroid) and
`K.sum(K.square(y_pred), axis=1)` (per prediction) in `nn_accuracy`. -/
def sqNorm (v : Vec) : ℚ := (v.map (fun x => x ^ 2)).sum

/-- Dot product of a prediction row with a centroid, one entry of
`K.dot(y_pred, centroids)` in `nn_accuracy`. -/
def dotProd (a b : Vec) : ℚ := (List.zipWith (fun x y => x * y) a b).sum

/-- One row of `dist = pred_norm + centroids_norm - 2 * K.dot(y_pred, centroids)`
(utils.py line 37): the expanded distance of prediction `p` to every row of
`embedding` (the code stores the centroids as the columns of `embedding.T`,
i.e. the rows of `embedding`). -/
def dist_row (embedding : List Vec) (p : Vec) : List ℚ :=
  embedding.map (fun c => sqNorm p + sqNorm c - 2 * dotProd p c)

/-- Minimum of a list of rationals, modelling `K.min(dist, axis=-1)` on one
row (0 on an empty row, where the backend reduction is degenerate). -/
def listMin : List ℚ → ℚ
  | [] => 0
  | x :: xs => xs.foldl min x

/-- Per-sample value of the metric closure returned by `nn_accuracy(embedding)`
(utils.py lines 30-43): 1.0 when `|true_dist - K.min(dist)| < 1e-6` and 0.0
otherwise, where `true_dist` is the directly computed squared distance of the
prediction to its true-embedding row (line 39, the same backend expression as
`squared_distance`) and `dist` is the row of expanded centroid distances. -/
def nn_accuracy (embedding : List Vec) (y_true y_pred : Vec) : Option ℚ :=
  (squared_distance y_true y_pred).map (fun true_dist =>
    if |true_dist - listMin (dist_row embedding y_pred)| < 1/1000000 then 1 else 0)

/-- The step-decay rate function defined inside the `resnet-schedule` branch
of `get_lr_schedule` (utils.py lines 189-197). -/
def resnet_scheduler (epoch : ℕ) : ℚ :=
  if 120 ≤ epoch then 1/1000
  else if 80 ≤ epoch then 1/100
  else if 1 ≤ epoch then 1/10
  else 1/100

/-- The `schedule_args` dictionary: an insertion-ordered mapping from option
names to numeric values. -/
abbrev ConfigMap := List (String × ℚ)

/-- Lookup of a key in a `ConfigMap` (Python `d[key]` / `key in d`). -/
def cfgFind : ConfigMap → String → Option ℚ
  | [], _ => none
  | (k, v) :: rest, key => if k = key then some v else cfgFind rest key

/-- Model of `if key not in d: d[key] = v`, the defaulting statement used by
every branch of `get_lr_schedule`: a missing key is appended with its default
value, a present key leaves the mapping unchanged. -/
def cfgSetDefault (m : ConfigMap) (key : String) (v : ℚ) : ConfigMap :=
  match cfgFind m key with
  | some _ => m
  | none => m ++ [(key, v)]

/-- Lookup with a fallback value. -/
def cfgFindD (m : ConfigMap) (key : String) (d : ℚ) : ℚ := (cfgFind m key).getD d

/-- The Keras callback objects constructed by `get_lr_schedule`, recording
exactly the arguments the code passes to them. -/
inductive LRCallback
  | reduceLROnPlateau (monitor : String) (patience : ℚ) (epsilon : ℚ) (min_lr : ℚ)
  | sgdrCb (min_lr max_lr base_len mul : ℚ)
  | cyclicLR (base_lr max_lr step_size : ℚ) (mode : String)
  | lrScheduler (schedule : ℕ → ℚ)

/-- Model of `get_lr_schedule(schedule, num_samples, batch_size, schedule_args)`
(utils.py lines 149-203).  The result pairs the returned
`(callback list, epoch horizon)` with the `schedule_args` mapping as it stands
after the call (the Python code inserts defaults into the caller's dictionary
in place; the lookups all happen after the defaults are inserted, so the
fallback value 0 of `cfgFindD` is never taken).  An unrecognized name raises
`ValueError`, modelled as `Except.error`. -/
def get_lr_schedule (schedule : String) (num_samples batch_size : ℕ)
    (schedule_args : ConfigMap) : Except String ((List LRCallback × ℚ) × ConfigMap) :=
  if strLower schedule = "sgd" then
    let args := cfgSetDefault (cfgSetDefault schedule_args "sgd_patience" 10) "sgd_min_lr" (1/10000)
    Except.ok (([LRCallback.reduceLROnPlateau "val_loss" (cfgFindD args "sgd_patience" 0)
        (1/10000) (cfgFindD args "sgd_min_lr" 0)], 200), args)
  else if strLower schedule = "sgdr" then
    let args := cfgSetDefault (cfgSetDefault (cfgSetDefault schedule_args
        "sgdr_base_len" 12) "sgdr_mul" 2) "sgdr_max_lr" (1/10)
    Except.ok (([LRCallback.sgdrCb (1/1000000) (cfgFindD args "sgdr_max_lr" 0)
        (cfgFindD args "sgdr_base_len" 0) (cfgFindD args "sgdr_mul" 0)],
      ((List.range 5).map
        (fun i => cfgFindD args "sgdr_base_len" 0 * cfgFindD args "sgdr_mul" 0 ^ i)).sum), args)
  else if strLower schedule = "clr" then
    let args := cfgSetDefault (cfgSetDefault (cfgSetDefault schedule_args
        "clr_step_len" 12) "clr_min_lr" (1/100000)) "clr_max_lr" (1/10)
    Except.ok (([LRCallback.cyclicLR (cfgFindD args "clr_min_lr" 0) (cfgFindD args "clr_max_lr" 0)
        (cfgFindD args "clr_step_len" 0 * ((num_samples / batch_size : ℕ) : ℚ)) "triangular"],
      cfgFindD args "clr_step_len" 0 * 20), args)
  else if strLower schedule = "resnet-schedule" then
    Except.ok (([LRCallback.lrScheduler resnet_scheduler], 164), schedule_args)
  else
    Except.error ("Unknown learning rate schedule: " ++ schedule)

/-- The state of the caller's `schedule_args` object after a call to
`get_lr_schedule` (on the error path the dictionary is untouched, since the
`ValueError` is raised before any mutation). -/
def postArgs (schedule : String) (num_samples batch_size : ℕ) (m : ConfigMap) : ConfigMap :=
  match get_lr_schedule schedule num_samples batch_size m with
  | Except.ok (_, m2) => m2
  | Except.error _ => m

theorem cfgFind_append (m l : ConfigMap) (key : String) :
    cfgFind (m ++ l) key = (cfgFind m key).orElse (fun _ => cfgFind l key) := by
  induction m with
  | nil => simp [cfgFind, Option.orElse]
  | cons kv rest ih =>
    obtain ⟨k, v⟩ := kv
    by_cases h : k = key
    · simp [cfgFind, h, Option.orElse]
    · simp [cfgFind, h, ih]

theorem cfgFind_setDefault_self (m : ConfigMap) (k : String) (v : ℚ) :
    cfgFind (cfgSetDefault m k v) k = some (cfgFindD m k v) := by
  unfold cfgSetDefault cfgFindD
  cases h : cfgFind m k with
  | some w => simp [h]
  | none => simp [h, cfgFind_append, cfgFind, Option.orElse]

theorem cfgFind_setDefault_ne (m : ConfigMap) (k key : String) (v : ℚ) (h : key ≠ k) :
    cfgFind (cfgSetDefault m k v) key = cfgFind m key := by
  unfold cfgSetDefault
  cases hm : cfgFind m k with
  | some w => rfl
  | none =>
    rw [cfgFind_append]
    have : cfgFind [(k, v)] key = none := by simp [cfgFind, Ne.symm h]
    rw [this]
    cases cfgFind m key <;> rfl

theorem cfgFindD_setDefault_self (m : ConfigMap) (k : String) (v d : ℚ) :
    cfgFindD (cfgSetDefault m k v) k d = cfgFindD m k v := by
  simp [cfgFindD, cfgFind_setDefault_self]

theorem cfgFindD_setDefault_ne (m : ConfigMap) (k key : String) (v d : ℚ) (h : key ≠ k) :
    cfgFindD (cfgSetDefault m k v) key d = cfgFindD m key d := by
  simp [cfgFindD, cfgFind_setDefault_ne m k key v h]

/-- The `sgd` branch of `get_lr_schedule`, with the post-default lookups
rewritten to supplied-or-default form. -/
theorem lrs_sgd (s : String) (n b : ℕ) (args : ConfigMap) (hs : strLower s = "sgd") :
    get_lr_schedule s n b args = Except.ok
      (([LRCallback.reduceLROnPlateau "val_loss" (cfgFindD args "sgd_patience" 10) (1/10000)
          (cfgFindD args "sgd_min_lr" (1/10000))], 200),
        cfgSetDefault (cfgSetDefault args "sgd_patience" 10) "sgd_min_lr" (1/10000)) := by
  simp +decide [get_lr_schedule, hs, cfgFindD_setDefault_self, cfgFindD_setDefault_ne]

/-- The `sgdr` branch of `get_lr_schedule`, with the post-default lookups
rewritten to supplied-or-default form. -/
theorem lrs_sgdr (s : String) (n b : ℕ) (args : ConfigMap) (hs : strLower s = "sgdr") :
    get_lr_schedule s n b args = Except.ok
      (([LRCallback.sgdrCb (1/1000000) (cfgFindD args "sgdr_max_lr" (1/10))
          (cfgFindD args "sgdr_base_len" 12) (cfgFindD args "sgdr_mul" 2)],
        ((List.range 5).map
          (fun i => cfgFindD args "sgdr_base_len" 12 * cfgFindD args "sgdr_mul" 2 ^ i)).sum),
        cfgSetDefault (cfgSetDefault (cfgSetDefault args "sgdr_base_len" 12)
          "sgdr_mul" 2) "sgdr_max_lr" (1/10)) := by
  simp +decide [get_lr_schedule, hs, cfgFindD_setDefault_self, cfgFindD_setDefault_ne]

/-- The `clr` branch of `get_lr_schedule`, with the post-default lookups
rewritten to supplied-or-default form. -/
theorem lrs_clr (s : String) (n b : ℕ) (args : ConfigMap) (hs : strLower s = "clr") :
    get_lr_schedule s n b args = Except.ok
      (([LRCallback.cyclicLR (cfgFindD args "clr_min_lr" (1/100000))
          (cfgFindD args "clr_max_lr" (1/10))
          (cfgFindD args "clr_step_len" 12 * ((n / b : ℕ) : ℚ)) "triangular"],
        cfgFindD args "clr_step_len" 12 * 20),
        cfgSetDefault (cfgSetDefault (cfgSetDefault args "clr_step_len" 12)
          "clr_min_lr" (1/100000)) "clr_max_lr" (1/10)) := by
  simp +decide [get_lr_schedule, hs, cfgFindD_setDefault_self, cfgFindD_setDefault_ne]

/-- The `resnet-schedule` branch of `get_lr_schedule`. -/
theorem lrs_resnet (s : String) (n b : ℕ) (args : ConfigMap)
    (hs : strLower s = "resnet-schedule") :
    get_lr_schedule s n b args =
      Except.ok (([LRCallback.lrScheduler resnet_scheduler], 164), args) := by
  simp +decide [get_lr_schedule, hs]

/-- The failure branch of `get_lr_schedule`. -/
theorem lrs_unknown (s : String) (n b : ℕ) (args : ConfigMap)
    (h1 : strLower s ≠ "sgd") (h2 : strLower s ≠ "sgdr")
    (h3 : strLower s ≠ "clr") (h4 : strLower s ≠ "resnet-schedule") :
    get_lr_schedule s n b args =
      Except.error ("Unknown learning rate schedule: " ++ s) := by
  simp [get_lr_schedule, h1, h2, h3, h4]

theorem foldl_min_mem (xs : List ℚ) : ∀ x : ℚ, xs.foldl min x ∈ x :: xs := by
  induction xs with
  | nil => intro x; simp
  | cons y ys ih =>
    intro x
    simp only [List.foldl_cons]
    rcases List.mem_cons.mp (ih (min x y)) with h | h
    · rcases min_choice x y with hc | hc <;> simp [List.mem_cons, h.trans hc]
    · simp [h]

theorem foldl_min_le_init (xs : List ℚ) : ∀ x : ℚ, xs.foldl min x ≤ x := by
  induction xs with
  | nil => intro x; exact le_refl x
  | cons y ys ih =>
    intro x
    simp only [List.foldl_cons]
    exact le_trans (ih (min x y)) (min_le_left x y)

theorem foldl_min_le_mem (xs : List ℚ) : ∀ x d : ℚ, d ∈ xs → xs.foldl min x ≤ d := by
  induction xs with
  | nil => intro x d hd; simp at hd
  | cons y ys ih =>
    intro x d hd
    simp only [List.foldl_cons]
    rcases List.mem_cons.mp hd with rfl | hd2
    · exact le_trans (foldl_min_le_init ys (min x d)) (min_le_right x d)
    · exact ih (min x y) d hd2

theorem listMin_spec (l : List ℚ) (m : ℚ) (hm : m ∈ l) (hle : ∀ d ∈ l, m ≤ d) :
    listMin l = m := by
  cases l with
  | nil => simp at hm
  | cons x xs =>
    show xs.foldl min x = m
    refine le_antisymm ?_ (hle _ (foldl_min_mem xs x))
    rcases List.mem_cons.mp hm with rfl | h
    · exact foldl_min_le_init xs m
    · exact foldl_min_le_mem xs x m h

theorem sqNorm_cons (a : ℚ) (v : Vec) : sqNorm (a :: v) = a ^ 2 + sqNorm v := by
  simp [sqNorm]

theorem dotProd_cons (a b : ℚ) (v w : Vec) :
    dotProd (a :: v) (b :: w) = a * b + dotProd v w := by
  simp [dotProd]

theorem sq_sub_sum : ∀ p c : Vec, p.length = c.length →
    ((List.zipWith (fun x y => x - y) p c).map (fun x => x ^ 2)).sum
      = sqNorm p + sqNorm c - 2 * dotProd p c := by
  intro p
  induction p with
  | nil =>
    intro c hc
    cases c with
    | nil => simp [sqNorm, dotProd]
    | cons b cs => simp at hc
  | cons a ps ih =>
    intro c hc
    cases c with
    | nil => simp at hc
    | cons b cs =>
      simp only [List.zipWith_cons_cons, List.map_cons, List.sum_cons,
        sqNorm_cons, dotProd_cons]
      rw [ih cs (by simpa using hc)]
      ring

/-- C2: for equal-length vectors the expanded distance
`‖p‖² + ‖c‖² − 2·(p·c)` used to rank centroids (utils.py line 37) equals the
directly computed squared distance `Σᵢ(pᵢ − cᵢ)²` (line 39 / lines 22-23):
the two formulas agree exactly over rational arithmetic. -/
theorem squared_distance_eq_expanded (p c : Vec) (h : p.length = c.length) :
    squared_distance c p = some (sqNorm p + sqNorm c - 2 * dotProd p c) := by
  unfold squared_distance bcastSub
  rw [if_pos h]
  simp [sq_sub_sum p c h]

theorem squared_distance_eq_expanded_witness :
    ([(1:ℚ), 2] : Vec).length = ([(3:ℚ), 4] : Vec).length ∧
    squared_distance [(3:ℚ), 4] [1, 2]
      = some (sqNorm [(1:ℚ), 2] + sqNorm [(3:ℚ), 4] - 2 * dotProd [1, 2] [3, 4]) :=
  ⟨rfl, squared_distance_eq_expanded [1, 2] [3, 4] rfl⟩

/-- C1: the per-sample value computed by the classifier built by
`nn_accuracy` is 1 exactly when `|true_dist − min_dist| < 1e-6`, where
`true_dist` is the squared distance between the prediction row and its true
embedding row and `min_dist` is the minimum over all centroids of the
expanded distance; otherwise it is 0. -/
theorem nn_accuracy_correct_iff (E : List Vec) (t p : Vec) (td m : ℚ)
    (htd : squared_distance t p = some td)
    (hm : m ∈ dist_row E p) (hle : ∀ d ∈ dist_row E p, m ≤ d) :
    (nn_accuracy E t p = some 1 ↔ |td - m| < 1/1000000) ∧
    (nn_accuracy E t p = some 0 ↔ ¬ |td - m| < 1/1000000) := by
  have hmin : listMin (dist_row E p) = m := listMin_spec _ _ hm hle
  simp only [nn_accuracy, htd, Option.map_some', hmin]
  by_cases hcase : |td - m| < 1/1000000
  · simp [hcase]
  · simp [hcase]

theorem nn_accuracy_correct_iff_witness :
    nn_accuracy [[(0:ℚ)], [10]] [0] [1/10] = some 1 := by
  have h := nn_accuracy_correct_iff [[(0:ℚ)], [10]] [0] [1/10] (1/100) (1/100)
    (by norm_num [squared_distance, bcastSub])
    (by norm_num [dist_row, sqNorm, dotProd])
    (by norm_num [dist_row, sqNorm, dotProd])
  exact h.1.mpr (by norm_num)

/-- C3: the step-decay rate function returns exactly 0.01 at epoch 0, 0.1 for
1 ≤ e < 80, 0.01 for 80 ≤ e < 120 and 0.001 for e ≥ 120; in particular its
value is always one of 0.01, 0.1, 0.001. -/
theorem resnet_scheduler_spec (e : ℕ) :
    resnet_scheduler e =
      (if e = 0 then 1/100 else if e < 80 then 1/10 else if e < 120 then 1/100 else 1/1000) ∧
    (resnet_scheduler e = 1/100 ∨ resnet_scheduler e = 1/10 ∨ resnet_scheduler e = 1/1000) := by
  have h : resnet_scheduler e =
      (if e = 0 then (1:ℚ)/100 else if e < 80 then 1/10 else if e < 120 then 1/100 else 1/1000) := by
    unfold resnet_scheduler
    split_ifs <;> first | rfl | omega
  refine ⟨h, ?_⟩
  rw [h]
  split_ifs <;> norm_num

theorem range5_sum (B M : ℚ) :
    ((List.range 5).map (fun i => B * M ^ i)).sum = ∑ i in Finset.range 5, B * M ^ i := by
  simp [List.range_succ, Finset.sum_range_succ]
  ring

/-- C4: for the SGDR (warm-restart) variant the factory's recommended epoch
horizon equals the sum over i in 0..4 of `base_len · mul^i`, and with the
default configuration it equals 372. -/
theorem sgdr_horizon_spec (n b : ℕ) (args : ConfigMap)
    (h : 0 < cfgFindD args "sgdr_base_len" 12) :
    (∃ cbs m, get_lr_schedule "SGDR" n b args = Except.ok ((cbs,
        ∑ i in Finset.range 5,
          cfgFindD args "sgdr_base_len" 12 * cfgFindD args "sgdr_mul" 2 ^ i), m)) ∧
    (∃ cbs m, get_lr_schedule "SGDR" n b [] = Except.ok ((cbs, 372), m)) := by
  constructor
  · exact ⟨_, _, by rw [lrs_sgdr "SGDR" n b args (by decide), range5_sum]⟩
  · refine ⟨[LRCallback.sgdrCb (1/1000000) (1/10) 12 2],
      cfgSetDefault (cfgSetDefault (cfgSetDefault [] "sgdr_base_len" 12)
        "sgdr_mul" 2) "sgdr_max_lr" (1/10), ?_⟩
    rw [lrs_sgdr "SGDR" n b [] (by decide)]
    norm_num [cfgFindD, cfgFind, List.range_succ]

theorem sgdr_horizon_spec_witness :
    0 < cfgFindD [] "sgdr_base_len" 12 ∧
    ((∃ cbs m, get_lr_schedule "SGDR" 1 1 [] = Except.ok ((cbs,
        ∑ i in Finset.range 5,
          cfgFindD [] "sgdr_base_len" 12 * cfgFindD [] "sgdr_mul" 2 ^ i), m)) ∧
     (∃ cbs m, get_lr_schedule "SGDR" 1 1 [] = Except.ok ((cbs, 372), m))) :=
  ⟨by norm_num [cfgFindD, cfgFind], sgdr_horizon_spec 1 1 [] (by norm_num [cfgFindD, cfgFind])⟩

/-- C5: for the CLR (cyclic) variant the factory passes the callback a
half-cycle length of `step_len · ⌊num_samples / batch_size⌋` iterations and
returns a recommended horizon of `step_len · 20` epochs, where `step_len` is
the supplied value or its default 12. -/
theorem clr_schedule_spec (n b : ℕ) (args : ConfigMap) (hb : 0 < b) :
    ∃ lo hi m, get_lr_schedule "CLR" n b args = Except.ok
      (([LRCallback.cyclicLR lo hi
          (cfgFindD args "clr_step_len" 12 * ((n / b : ℕ) : ℚ)) "triangular"],
        cfgFindD args "clr_step_len" 12 * 20), m) :=
  ⟨_, _, _, lrs_clr "CLR" n b args (by decide)⟩

theorem clr_schedule_spec_witness :
    0 < 10 ∧
    ∃ lo hi m, get_lr_schedule "CLR" 100 10 [] = Except.ok
      (([LRCallback.cyclicLR lo hi
          (cfgFindD [] "clr_step_len" 12 * ((100 / 10 : ℕ) : ℚ)) "triangular"],
        cfgFindD [] "clr_step_len" 12 * 20), m) :=
  ⟨by decide, clr_schedule_spec 100 10 [] (by decide)⟩

/-- C6: every defaulted option that is absent from the configuration is
filled with its documented default and a supplied value is used unchanged
(`cfgFindD args key default` is the supplied value when `key` is present and
`default` otherwise): SGD gets patience 10 and min_lr 1e-4, SGDR gets
base_len 12, mul 2, max_lr 0.1 and a fixed floor of 1e-6, CLR gets
step_len 12. -/
theorem get_lr_schedule_defaults (n b : ℕ) (args : ConfigMap) :
    (∃ m, get_lr_schedule "SGD" n b args = Except.ok
      (([LRCallback.reduceLROnPlateau "val_loss" (cfgFindD args "sgd_patience" 10) (1/10000)
          (cfgFindD args "sgd_min_lr" (1/10000))], 200), m)) ∧
    (∃ h m, get_lr_schedule "SGDR" n b args = Except.ok
      (([LRCallback.sgdrCb (1/1000000) (cfgFindD args "sgdr_max_lr" (1/10))
          (cfgFindD args "sgdr_base_len" 12) (cfgFindD args "sgdr_mul" 2)], h), m)) ∧
    (∃ lo hi h m, get_lr_schedule "CLR" n b args = Except.ok
      (([LRCallback.cyclicLR lo hi
          (cfgFindD args "clr_step_len" 12 * ((n / b : ℕ) : ℚ)) "triangular"], h), m)) :=
  ⟨⟨_, lrs_sgd "SGD" n b args (by decide)⟩,
   ⟨_, _, lrs_sgdr "SGDR" n b args (by decide)⟩,
   ⟨_, _, _, _, lrs_clr "CLR" n b args (by decide)⟩⟩

/-- C7: the factory fails if and only if the supplied name matches none of
the four tokens SGD, SGDR, CLR, ResNet-Schedule under case-insensitive
comparison; for a matching name it returns a schedule and horizon. -/
theorem unknown_schedule_iff (s : String) (n b : ℕ) (args : ConfigMap) :
    ((∃ e, get_lr_schedule s n b args = Except.error e) ↔
      ∀ t ∈ (["SGD", "SGDR", "CLR", "ResNet-Schedule"] : List String),
        strLower s ≠ strLower t) ∧
    ((∃ r m, get_lr_schedule s n b args = Except.ok (r, m)) ↔
      ∃ t ∈ (["SGD", "SGDR", "CLR", "ResNet-Schedule"] : List String),
        strLower s = strLower t) := by
  have t1 : strLower "SGD" = "sgd" := by decide
  have t2 : strLower "SGDR" = "sgdr" := by decide
  have t3 : strLower "CLR" = "clr" := by decide
  have t4 : strLower "ResNet-Schedule" = "resnet-schedule" := by decide
  by_cases h1 : strLower s = "sgd"
  · rw [lrs_sgd s n b args h1]
    simp [t1, t2, t3, t4, h1]
  · by_cases h2 : strLower s = "sgdr"
    · rw [lrs_sgdr s n b args h2]
      simp [t1, t2, t3, t4, h2]
    · by_cases h3 : strLower s = "clr"
      · rw [lrs_clr s n b args h3]
        simp [t1, t2, t3, t4, h3]
      · by_cases h4 : strLower s = "resnet-schedule"
        · rw [lrs_resnet s n b args h4]
          simp [t1, t2, t3, t4, h4]
        · rw [lrs_unknown s n b args h1 h2 h3 h4]
          simp [t1, t2, t3, t4, h1, h2, h3, h4]

/-- C8 counterexample: with the out-of-domain option `mul = 1` (the spec
requires `mul > 1`) the factory does not fail: it returns a schedule built
from the supplied value, so no `InvalidConfig` is ever raised. -/
theorem invalid_config_not_raised :
    get_lr_schedule "SGDR" 1 1 [("sgdr_mul", 1)] =
      Except.ok (([LRCallback.sgdrCb (1/1000000) (1/10) 12 1], 60),
        [("sgdr_mul", 1), ("sgdr_base_len", 12), ("sgdr_max_lr", (1:ℚ)/10)]) := by
  simp +decide [get_lr_schedule, cfgSetDefault, cfgFind, cfgFindD, strLower, List.range_succ]
  norm_num

/-- C8 amended: for every recognized schedule name the factory performs no
domain validation of the supplied options: it returns a schedule for every
configuration map whatsoever, never raising. -/
theorem no_config_validation (s : String) (n b : ℕ) (args : ConfigMap)
    (h : ∃ t ∈ (["SGD", "SGDR", "CLR", "ResNet-Schedule"] : List String),
      strLower s = strLower t) :
    ∃ r m, get_lr_schedule s n b args = Except.ok (r, m) := by
  rcases h with ⟨t, ht, hs⟩
  simp only [List.mem_cons, List.not_mem_nil, or_false] at ht
  rcases ht with rfl | rfl | rfl | rfl
  · exact ⟨_, _, lrs_sgd s n b args (hs.trans (by decide))⟩
  · exact ⟨_, _, lrs_sgdr s n b args (hs.trans (by decide))⟩
  · exact ⟨_, _, lrs_clr s n b args (hs.trans (by decide))⟩
  · exact ⟨_, _, lrs_resnet s n b args (hs.trans (by decide))⟩

theorem no_config_validation_witness :
    ∃ r m, get_lr_schedule "SGDR" 1 1 [("sgdr_mul", 1)] = Except.ok (r, m) :=
  no_config_validation "SGDR" 1 1 [("sgdr_mul", 1)] ⟨"SGDR", by simp, rfl⟩

/-- C9 counterexample: for the unequal-length pair `y_true = [0]`,
`y_pred = [3, 4]` the backend silently broadcasts the singleton and
`squared_distance` returns the value 25 instead of failing. -/
theorem squared_distance_broadcasts :
    squared_distance [(0:ℚ)] [3, 4] = some 25 := by
  norm_num [squared_distance, bcastSub]

/-- C9 amended: on vectors of unequal dimensionality `squared_distance`
fails (with the backend's shape error, there is no dedicated
DimensionMismatch) exactly when neither operand has length 1; when either
operand is a singleton it is silently broadcast across the other and a value
is returned. -/
theorem squared_distance_mismatch_iff (t p : Vec) (h : t.length ≠ p.length) :
    squared_distance t p = none ↔ (t.length ≠ 1 ∧ p.length ≠ 1) := by
  unfold squared_distance bcastSub
  rw [if_neg (fun hc => h hc.symm)]
  by_cases h1 : p.length = 1
  · rw [if_pos h1]
    simp [h1]
  · rw [if_neg h1]
    by_cases h2 : t.length = 1
    · rw [if_pos h2]
      simp [h1, h2]
    · rw [if_neg h2]
      simp [h1, h2]

theorem squared_distance_mismatch_iff_witness :
    ([(0:ℚ), 1, 2] : Vec).length ≠ ([(3:ℚ), 4] : Vec).length ∧
    (squared_distance [(0:ℚ), 1, 2] [3, 4] = none ↔
      (([(0:ℚ), 1, 2] : Vec).length ≠ 1 ∧ ([(3:ℚ), 4] : Vec).length ≠ 1)) :=
  ⟨by decide, squared_distance_mismatch_iff [0, 1, 2] [3, 4] (by decide)⟩

/-- C10: `get_lr_schedule` writes missing defaults into the caller-supplied
mapping itself (observable after the call via `postArgs`), and because the
default parameter `schedule_args = {}` is one shared dictionary, defaults
inserted by a call made without an explicit config (modelled by threading the
shared dictionary, initially empty, through successive calls) persist into
subsequent such calls: after a first default-argument call with `sgd`, a
second default-argument call with `sgdr` still sees `sgd_patience = 10`. -/
theorem schedule_args_mutation (n b n2 b2 : ℕ) (args : ConfigMap)
    (h : cfgFind args "sgd_patience" = none) :
    cfgFind (postArgs "SGD" n b args) "sgd_patience" = some 10 ∧
    cfgFind (postArgs "sgdr" n2 b2 (postArgs "sgd" n b [])) "sgd_patience" = some 10 ∧
    cfgFind (postArgs "sgdr" n2 b2 (postArgs "sgd" n b [])) "sgdr_base_len" = some 12 := by
  have e1 : postArgs "SGD" n b args =
      cfgSetDefault (cfgSetDefault args "sgd_patience" 10) "sgd_min_lr" (1/10000) := by
    simp only [postArgs, lrs_sgd "SGD" n b args (by decide)]
  have e2 : postArgs "sgd" n b [] = [("sgd_patience", 10), ("sgd_min_lr", 1/10000)] := by
    simp only [postArgs, lrs_sgd "sgd" n b [] (by decide)]
    simp +decide [cfgSetDefault, cfgFind]
  have e3 : postArgs "sgdr" n2 b2 [("sgd_patience", 10), ("sgd_min_lr", 1/10000)] =
      [("sgd_patience", 10), ("sgd_min_lr", 1/10000), ("sgdr_base_len", 12),
        ("sgdr_mul", 2), ("sgdr_max_lr", 1/10)] := by
    simp only [postArgs, lrs_sgdr "sgdr" n2 b2 _ (by decide)]
    simp +decide [cfgSetDefault, cfgFind]
  refine ⟨?_, ?_, ?_⟩
  · rw [e1, cfgFind_setDefault_ne (cfgSetDefault args "sgd_patience" 10)
      "sgd_min_lr" "sgd_patience" (1/10000) (by decide), cfgFind_setDefault_self]
    simp [cfgFindD, h]
  · rw [e2, e3]
    simp +decide [cfgFind]
  · rw [e2, e3]
    simp +decide [cfgFind]

theorem schedule_args_mutation_witness :
    cfgFind [] "sgd_patience" = none ∧
    (cfgFind (postArgs "SGD" 1 1 []) "sgd_patience" = some 10 ∧
     cfgFind (postArgs "sgdr" 1 1 (postArgs "sgd" 1 1 [])) "sgd_patience" = some 10 ∧
     cfgFind (postArgs "sgdr" 1 1 (postArgs "sgd" 1 1 [])) "sgdr_base_len" = some 12) :=
  ⟨rfl, schedule_args_mutation 1 1 1 1 [] rfl⟩
